import Mathlib

/-!
Shallow embedding of the consensus core of the
`arosloff/streamlet-transparency-logging` repository.

Two crates are embedded:
* `cs244b_project` — the Streamlet node (`src/lib.rs`): message signing and
  verification, notarization, deterministic leader election, and the
  network-input arm of the event loop.
* `rust-blockchain-example` — the annotated libp2p tutorial (`src/main.rs`):
  chain validity and the fork-choice function `choose_chain`.

Machine integers are modelled as `Nat` with explicit `% 2^w` where the Rust
code truncates (the `as u32` casts, the 64-bit SipHash state); `panic!` sites
are modelled by `Option`-valued functions returning `none`.

The repository's `messages.rs`, `blockchain.rs`, `utils/crypto.rs` and
`peer_init` modules are not available; every definition that stands in for
them carries a doc comment beginning with "Modelled from the spec:" and
follows the specification text.  The ed25519 signature scheme itself is
idealized in the standard symbolic way: a keypair is a natural-number
identity, and verification succeeds exactly for the matching key and the
exact signed bytes.
-/

namespace Streamlet

/-- Byte strings (and Rust `String`s) are modelled as lists of naturals. -/
abbrev Bytes := List Nat

/-- A public key.  Modelled from the spec: `utils/crypto.rs` (re-exporting
the ed25519 types) is not under src/; keys are idealized as natural-number
identities, with a keypair's public key equal to its secret identity. -/
abbrev PublicKey := Nat

/-- Modelled from the spec: an ed25519 signature, idealized symbolically as
the signer's key identity together with the exact bytes that were signed. -/
structure Signature where
  signer : PublicKey
  signed : Bytes
deriving DecidableEq, Repr

/-- Modelled from the spec: `PublicKey::verify` of the missing crypto module.
Per the spec (section 4.1 signature integrity), verification succeeds exactly
when the signature was produced by the matching key over the same bytes;
any mismatch is a verification failure, reported as an error value
(ed25519-dalek returns a `Result`). -/
def pkVerify (pk : PublicKey) (bytes : Bytes) (sig : Signature) :
    Except String Unit :=
  if sig.signer = pk ∧ sig.signed = bytes then Except.ok ()
  else Except.error "Verification equation was not satisfied"

/-- Modelled from the spec: `Keypair::sign` of the missing crypto module —
signing produces the signature that `pkVerify` accepts for this keypair's
public key over exactly these bytes. -/
def keypairSign (keypair : Nat) (bytes : Bytes) : Signature :=
  ⟨keypair, bytes⟩

/-- The block of the cs244b crate.  Modelled from the spec: `blockchain.rs`
is not under src/; per spec section 3 a block is
`(epoch, height, parent_hash, data, hash)`. -/
structure Block where
  epoch : Nat
  height : Nat
  parent_hash : Nat
  data : Bytes
  hash : Nat
deriving DecidableEq, Repr

/-- Modelled from the spec: the `PeerAdvertisement` payload of `peer_init`
(not under src/); it carries at least the advertised node's public key,
which the event loop feeds into `add_public_key` (lib.rs line 154). -/
structure PeerAdvertisement where
  name : Bytes
  public_key : PublicKey
deriving DecidableEq, Repr

/-- The payload alternatives of the message envelope (spec section 3:
`Block | String | PeerAd`; the lib.rs event loop constructs `String`
payloads and matches on `PeerAdvertisement`). -/
inductive MessagePayload where
  | block (b : Block)
  | str (s : Bytes)
  | peerAd (ad : PeerAdvertisement)
deriving DecidableEq, Repr

/-- The message kinds (spec section 3: `Propose | Vote | PeerAdvertisement |
…`; lib.rs uses `Test` and `Vote`). -/
inductive MessageKind where
  | propose
  | vote
  | test
  | peerAdvertisement
deriving DecidableEq, Repr

/-- The message envelope of `messages.rs` as described in spec section 3:
`{ kind, payload, nonce: u32, signatures: Option<Vec<Signature>> }`. -/
structure Message where
  payload : MessagePayload
  kind : MessageKind
  nonce : Nat
  signatures : Option (List Signature)
deriving DecidableEq, Repr

/-- Modelled from the spec: `Message::serialize_payload` of the missing
`messages.rs`.  Per spec section 3 it is a stable encoding of the `payload`
field only — it never reads `kind` or `nonce`.  The encoding below is an
injective word-level encoding with a leading tag per payload alternative
and length-prefixed variable-size fields. -/
def serializePayload : MessagePayload → Bytes
  | MessagePayload.block b =>
      0 :: b.epoch :: b.height :: b.parent_hash ::
        (b.data.length :: b.data ++ [b.hash])
  | MessagePayload.str s => 1 :: s.length :: s
  | MessagePayload.peerAd ad =>
      2 :: ad.name.length :: ad.name ++ [ad.public_key]

/-- The payload bytes a signature covers (`message.serialize_payload()`). -/
def Message.serialize_payload (m : Message) : Bytes :=
  serializePayload m.payload

/-- The state of `StreamletInstance` (lib.rs lines 25-33) that the helper
methods read: the node id, name, leader flag, the expected peer count, the
keypair (idealized identity) and the list of known public keys.  The
`blockchain_manager` field is omitted: `blockchain.rs` is not under src/ and
no claim reads it. -/
structure StreamletInstance where
  id : Nat
  name : Bytes
  is_leader : Bool
  expected_peer_count : Nat
  keypair : Nat
  public_keys : List PublicKey
deriving DecidableEq, Repr

/-- `StreamletInstance::sign` (lib.rs lines 182-184). -/
def StreamletInstance.sign (s : StreamletInstance) (bytes : Bytes) :
    Signature :=
  keypairSign s.keypair bytes

/-- `StreamletInstance::sign_message` (lib.rs lines 188-198): with a
signature container present, push this node's signature over the serialized
payload; with `signatures == None` the Rust code panics, modelled as
`none`. -/
def StreamletInstance.sign_message (s : StreamletInstance) (m : Message) :
    Option Message :=
  match m.signatures with
  | some sigs =>
      some { m with
              signatures :=
                some (sigs ++ [keypairSign s.keypair m.serialize_payload]) }
  | none => none

/-- `StreamletInstance::verify_signature` (lib.rs lines 204-211): run the
underlying verification and collapse its `Result` to a `Bool`, mapping any
error to `false`. -/
def StreamletInstance.verify_signature (s : StreamletInstance) (m : Message)
    (sig : Signature) (pk : PublicKey) : Bool :=
  match pkVerify pk m.serialize_payload sig with
  | Except.error _ => false
  | Except.ok _ => true

/-- `StreamletInstance::verify_message` (lib.rs lines 215-230): unwrap the
signature container (panic — `none` — when absent), then count, for each
attached signature, whether some known public key verifies it; the inner
loop breaks at the first matching key, so each signature contributes at most
one. -/
def StreamletInstance.verify_message (s : StreamletInstance) (m : Message) :
    Option Nat :=
  match m.signatures with
  | none => none
  | some sigs =>
      some (sigs.countP fun sig =>
        s.public_keys.any fun pk => s.verify_signature m sig pk)

/-- `StreamletInstance::is_notarized` (lib.rs lines 234-236): the count of
valid signatures is compared against `expected_peer_count / 2` (Rust `usize`
division, i.e. floor). -/
def StreamletInstance.is_notarized (s : StreamletInstance) (m : Message) :
    Option Bool :=
  (s.verify_message m).map fun k =>
    decide (s.expected_peer_count / 2 ≤ k)

/-- `StreamletInstance::add_public_key` (lib.rs lines 249-251): `Vec::push`
of the advertised key. -/
def StreamletInstance.add_public_key (s : StreamletInstance)
    (pk : PublicKey) : StreamletInstance :=
  { s with public_keys := s.public_keys ++ [pk] }

/-! ### Leader election

`get_epoch_leader` (lib.rs lines 240-245) feeds the epoch number into
`std::collections::hash_map::DefaultHasher` — SipHash-1-3 with both keys
zero — truncates `finish()` to `u32`, and reduces it modulo
`expected_peer_count as u32`.  The SipHash-1-3 rounds are embedded below
over `Nat` with explicit `% 2 ^ 64` truncation; `Hasher::write_i64` hashes
the eight native-endian (little-endian) bytes of the epoch, i.e. the single
64-bit word `epoch mod 2 ^ 64`. -/

/-- 64-bit left rotation. -/
def rotl64 (x n : Nat) : Nat :=
  ((x <<< n) ||| (x >>> (64 - n))) % 2 ^ 64

/-- The four 64-bit SipHash state words. -/
structure SipState where
  v0 : Nat
  v1 : Nat
  v2 : Nat
  v3 : Nat
deriving DecidableEq, Repr

/-- One SipHash round (the SIPROUND permutation). -/
def sipRound (st : SipState) : SipState :=
  let v0 := (st.v0 + st.v1) % 2 ^ 64
  let v1 := rotl64 st.v1 13
  let v1 := v1 ^^^ v0
  let v0 := rotl64 v0 32
  let v2 := (st.v2 + st.v3) % 2 ^ 64
  let v3 := rotl64 st.v3 16
  let v3 := v3 ^^^ v2
  let v0 := (v0 + v3) % 2 ^ 64
  let v3 := rotl64 v3 21
  let v3 := v3 ^^^ v0
  let v2 := (v2 + v1) % 2 ^ 64
  let v1 := rotl64 v1 17
  let v1 := v1 ^^^ v2
  let v2 := rotl64 v2 32
  ⟨v0, v1, v2, v3⟩

/-- SipHash-1-3 with keys `(0, 0)` of a single 8-byte message word `m`:
the initial state is the SipHash constants, one compression round absorbs
`m`, one absorbs the final block `8 <<< 56` (message length in the top
byte), and three finalization rounds follow the `v2 ^^^ 0xff` flip.  This
is `DefaultHasher::new()` after `write_i64` and `finish()`. -/
def sipHash13Word (m : Nat) : Nat :=
  let st : SipState :=
    ⟨0x736f6d6570736575, 0x646f72616e646f6d,
     0x6c7967656e657261, 0x7465646279746573⟩
  let st := { st with v3 := st.v3 ^^^ m }
  let st := sipRound st
  let st := { st with v0 := st.v0 ^^^ m }
  let b : Nat := 8 <<< 56
  let st := { st with v3 := st.v3 ^^^ b }
  let st := sipRound st
  let st := { st with v0 := st.v0 ^^^ b }
  let st := { st with v2 := st.v2 ^^^ 0xff }
  let st := sipRound (sipRound (sipRound st))
  st.v0 ^^^ st.v1 ^^^ st.v2 ^^^ st.v3

/-- `DefaultHasher` output for `write_i64(epoch)`: the epoch's two's
complement 64-bit word fed to SipHash-1-3. -/
def defaultHasherI64 (epoch : Int) : Nat :=
  sipHash13Word (epoch % (2 ^ 64 : Int)).toNat

/-- `StreamletInstance::get_epoch_leader` (lib.rs lines 240-245):
`finish() as u32` truncates the hash to 32 bits, and the modulus is
`expected_peer_count as u32` (also a 32-bit truncation).  Rust's `%` by
zero panics, modelled as `none`. -/
def StreamletInstance.get_epoch_leader (s : StreamletInstance)
    (epoch : Int) : Option Nat :=
  let result := defaultHasherI64 epoch % 2 ^ 32
  let modulus := s.expected_peer_count % 2 ^ 32
  if modulus = 0 then none else some (result % modulus)

/-! ### The message envelope codec and the network-input event

`Message::serialize` and `Message::deserialize` live in the missing
`messages.rs`; they are modelled from the spec (section 4.2): a stable,
self-describing encoding of the full envelope satisfying the round-trip
law, with undecodable input rejected (`none`) rather than crashing
(section 7: malformed messages are dropped). -/

/-- Modelled from the spec: length-prefixed encoding of a variable-length
field of the envelope. -/
def encBytes (b : Bytes) : Bytes := b.length :: b

/-- Read exactly `n` words, returning them and the remainder. -/
def readN : Nat → Bytes → Option (Bytes × Bytes)
  | 0, rest => some ([], rest)
  | _ + 1, [] => none
  | n + 1, x :: rest => (readN n rest).map fun p => (x :: p.1, p.2)

/-- Decode a length-prefixed variable-length field. -/
def decBytes : Bytes → Option (Bytes × Bytes)
  | [] => none
  | n :: rest => readN n rest

/-- Modelled from the spec: the tag word of each message kind. -/
def encKind : MessageKind → Nat
  | MessageKind.propose => 0
  | MessageKind.vote => 1
  | MessageKind.test => 2
  | MessageKind.peerAdvertisement => 3

/-- Decode a message-kind tag; unknown tags are malformed. -/
def decKind : Nat → Option MessageKind
  | 0 => some MessageKind.propose
  | 1 => some MessageKind.vote
  | 2 => some MessageKind.test
  | 3 => some MessageKind.peerAdvertisement
  | _ => none

/-- Decode a payload (the same tagged layout `serializePayload` emits),
returning the remainder of the stream. -/
def decPayload : Bytes → Option (MessagePayload × Bytes)
  | 0 :: e :: h :: ph :: rest =>
      (decBytes rest).bind fun p =>
        match p.2 with
        | hh :: rest2 => some (MessagePayload.block ⟨e, h, ph, p.1, hh⟩, rest2)
        | [] => none
  | 1 :: rest => (decBytes rest).map fun p => (MessagePayload.str p.1, p.2)
  | 2 :: rest =>
      (decBytes rest).bind fun p =>
        match p.2 with
        | pk :: rest2 => some (MessagePayload.peerAd ⟨p.1, pk⟩, rest2)
        | [] => none
  | _ => none

/-- Modelled from the spec: encoding of one signature of the envelope. -/
def encSig (sig : Signature) : Bytes :=
  sig.signer :: encBytes sig.signed

/-- Decode one signature. -/
def decSig : Bytes → Option (Signature × Bytes)
  | [] => none
  | signer :: rest => (decBytes rest).map fun p => (⟨signer, p.1⟩, p.2)

/-- Decode exactly `n` signatures. -/
def readSigs : Nat → Bytes → Option (List Signature × Bytes)
  | 0, rest => some ([], rest)
  | n + 1, rest =>
      (decSig rest).bind fun p =>
        (readSigs n p.2).map fun q => (p.1 :: q.1, q.2)

/-- Modelled from the spec: encoding of the optional signature container —
an absence/presence tag, then a count-prefixed signature sequence. -/
def encSigsOpt : Option (List Signature) → Bytes
  | none => [0]
  | some sigs => 1 :: sigs.length :: sigs.foldr (fun sig acc => encSig sig ++ acc) []

/-- Decode the optional signature container. -/
def decSigsOpt : Bytes → Option (Option (List Signature) × Bytes)
  | 0 :: rest => some (none, rest)
  | 1 :: n :: rest => (readSigs n rest).map fun p => (some p.1, p.2)
  | _ => none

/-- Modelled from the spec: `Message::serialize` of the missing
`messages.rs` — a stable encoding of the full envelope: kind tag, nonce,
payload, then the optional signature container. -/
def Message.serialize (m : Message) : Bytes :=
  encKind m.kind :: m.nonce ::
    (serializePayload m.payload ++ encSigsOpt m.signatures)

/-- Modelled from the spec: `Message::deserialize` of the missing
`messages.rs`.  Per spec section 7, malformed or undecodable input is
rejected (`none`), never a crash; trailing garbage is likewise rejected. -/
def Message.deserialize (bytes : Bytes) : Option Message :=
  match bytes with
  | k :: nonce :: rest =>
      (decKind k).bind fun kind =>
        (decPayload rest).bind fun p =>
          (decSigsOpt p.2).bind fun q =>
            match q.2 with
            | [] => some ⟨p.1, kind, nonce, q.1⟩
            | _ => none
  | _ => none

/-- The `EventType::NetworkInput` arm of the event loop (lib.rs lines
147-160): decode the delivered bytes, then match on the payload — a
`PeerAdvertisement` adds the advertised public key (the `peer_init` side
effects concern only the out-of-scope discovery protocol); every other
payload leaves the consensus state untouched.  The decoding of malformed
input is modelled from the spec (dropped, state unchanged). -/
def handle_network_input (s : StreamletInstance) (bytes : Bytes) :
    StreamletInstance :=
  match Message.deserialize bytes with
  | none => s
  | some msg =>
      match msg.payload with
      | MessagePayload.peerAd ad => s.add_public_key ad.public_key
      | _ => s

end Streamlet

namespace RustBlockchainExample

open Streamlet (Bytes)

/-- The block of the rust-blockchain-example crate (`main.rs` /
`blockchain.rs`): an id, its hash, the parent's hash and the data; hashes
are strings in the Rust code, modelled as byte lists. -/
structure RBBlock where
  id : Nat
  hash : Bytes
  prev_hash : Bytes
  data : Bytes
deriving DecidableEq, Repr

/-- Modelled from the spec: `Block::validate_block` of the missing
`blockchain.rs` — per spec section 3 a chain links each block to its parent
by `parent_hash`, so a block is valid against its predecessor when its
`prev_hash` equals the predecessor's `hash` and its id is the successor id
(`handle_create_block` constructs blocks with `latest_block.id + 1`). -/
def validate_block (b prev : RBBlock) : Bool :=
  b.prev_hash == prev.hash && b.id == prev.id + 1

/-- `App::is_chain_valid` (main.rs lines 71-83): every adjacent pair must
validate; the loop skips index 0, so chains of length at most one are
vacuously valid. -/
def is_chain_valid : List RBBlock → Bool
  | [] => true
  | [_] => true
  | first :: second :: rest =>
      validate_block second first && is_chain_valid (second :: rest)

/-- `App::choose_chain` (main.rs lines 86-103): keep the longer of two
valid chains, the LOCAL one when the lengths are equal
(`local.len() >= remote.len()`); a lone valid chain wins; two invalid
chains panic (`none`). -/
def choose_chain (loc remote : List RBBlock) : Option (List RBBlock) :=
  let is_local_valid := is_chain_valid loc
  let is_remote_valid := is_chain_valid remote
  if is_local_valid && is_remote_valid then
    some (if loc.length ≥ remote.length then loc else remote)
  else if is_remote_valid && !is_local_valid then some remote
  else if !is_remote_valid && is_local_valid then some loc
  else none

end RustBlockchainExample

/-! ## Codec lemmas -/

namespace Streamlet

theorem readN_append (b r : Bytes) : readN b.length (b ++ r) = some (b, r) := by
  induction b with
  | nil => rfl
  | cons x xs ih => simp [readN, ih]

theorem decKind_encKind (k : MessageKind) : decKind (encKind k) = some k := by
  cases k <;> rfl

theorem decPayload_serializePayload (p : MessagePayload) (r : Bytes) :
    decPayload (serializePayload p ++ r) = some (p, r) := by
  cases p <;> simp [serializePayload, decPayload, decBytes, readN_append]

theorem decSig_encSig (sig : Signature) (r : Bytes) :
    decSig (encSig sig ++ r) = some (sig, r) := by
  simp [encSig, decSig, encBytes, decBytes, readN_append]

theorem readSigs_enc (l : List Signature) (r : Bytes) :
    readSigs l.length (l.foldr (fun sig acc => encSig sig ++ acc) [] ++ r) =
      some (l, r) := by
  induction l with
  | nil => rfl
  | cons sig l ih => simp [readSigs, List.append_assoc, decSig_encSig, ih]

theorem decSigsOpt_encSigsOpt (o : Option (List Signature)) (r : Bytes) :
    decSigsOpt (encSigsOpt o ++ r) = some (o, r) := by
  cases o with
  | none => rfl
  | some l => simp [encSigsOpt, decSigsOpt, readSigs_enc]

/-! ## Claims C1, C2: notarization threshold and signature counting -/

/-- Concrete block payload used by the concrete checks below. -/
def blkPayload : MessagePayload := MessagePayload.block ⟨1, 1, 0, [7], 42⟩

/-- A node expecting 4 peers that knows 4 distinct validator keys. -/
def nodeFour : StreamletInstance := ⟨0, [], false, 4, 0, [0, 1, 2, 3]⟩

/-- A message carrying two valid signatures from two distinct validators. -/
def msgTwoSigs : Message :=
  ⟨blkPayload, MessageKind.vote, 0,
    some [⟨0, serializePayload blkPayload⟩, ⟨1, serializePayload blkPayload⟩]⟩

/-- Claim C1, counterexample: with a validator set of size `n = 4` the claim
says a message with `2 = q - 1` distinct valid signatures is NOT notarized,
but the code compares against `expected_peer_count / 2 = 2` (floor), so the
message with exactly 2 distinct valid endorsements IS notarized. -/
theorem c1_counterexample :
    nodeFour.expected_peer_count = 4
    ∧ nodeFour.verify_message msgTwoSigs = some 2
    ∧ nodeFour.is_notarized msgTwoSigs = some true := by decide

/-- Claim C1 (amended): the code's notarization threshold is
`⌊n/2⌋ = ⌈(n+1)/2⌉ - 1`, not `⌈(n+1)/2⌉`: a message all of whose `k`
attached signatures are valid is notarized exactly when `⌊n/2⌋ ≤ k`; in
particular it is notarized both with `q = ⌈(n+1)/2⌉` valid signatures (as
the claim states) and already with `q - 1` of them (where the claim says it
is not).  `⌈(n+1)/2⌉` is `(n + 2) / 2` in floor arithmetic. -/
theorem c1_notarization_threshold (s : StreamletInstance) (m : Message)
    (sigs : List Signature) (hsigs : m.signatures = some sigs)
    (hvalid : ∀ sig ∈ sigs,
      s.public_keys.any (fun pk => s.verify_signature m sig pk) = true) :
    s.is_notarized m = some (decide (s.expected_peer_count / 2 ≤ sigs.length))
    ∧ (sigs.length = (s.expected_peer_count + 2) / 2 →
        s.is_notarized m = some true)
    ∧ (sigs.length + 1 = (s.expected_peer_count + 2) / 2 →
        s.is_notarized m = some true) := by
  have hcount : s.verify_message m = some sigs.length := by
    simp [StreamletInstance.verify_message, hsigs,
      List.countP_eq_length.mpr hvalid]
  refine ⟨?_, ?_, ?_⟩
  · simp [StreamletInstance.is_notarized, hcount]
  · intro h
    simp [StreamletInstance.is_notarized, hcount]
    omega
  · intro h
    simp [StreamletInstance.is_notarized, hcount]
    omega

/-- The signature list of the C1 witness: three distinct valid signers
(`q = 3` for `n = 4`). -/
def sigsThree : List Signature :=
  [⟨0, serializePayload blkPayload⟩, ⟨1, serializePayload blkPayload⟩,
   ⟨2, serializePayload blkPayload⟩]

/-- The C1 witness message, carrying the quorum of three signatures. -/
def msgThreeSigs : Message := ⟨blkPayload, MessageKind.vote, 0, some sigsThree⟩

/-- Witness for `c1_notarization_threshold` at `n = 4`, `k = 3`. -/
theorem c1_witness : nodeFour.is_notarized msgThreeSigs = some true :=
  (c1_notarization_threshold nodeFour msgThreeSigs sigsThree rfl
    (by decide)).2.1 (by decide)

/-- A node expecting 3 peers that knows exactly one validator key. -/
def nodeOneKey : StreamletInstance := ⟨0, [], false, 3, 0, [0]⟩

/-- A valid signature of key 0 over the concrete block payload. -/
def sigZero : Signature := ⟨0, serializePayload blkPayload⟩

/-- A message carrying the SAME valid signature twice. -/
def msgDupSigs : Message :=
  ⟨blkPayload, MessageKind.vote, 0, some [sigZero, sigZero]⟩

/-- Claim C2, counterexample: a message with duplicate signatures from the
same signer is claimed to contribute one toward notarization; the code
counts each occurrence, so the duplicated signature yields a count of 2,
not 1 — `verify_message` never deduplicates by signer. -/
theorem c2_counterexample :
    msgDupSigs.signatures = some [sigZero, sigZero]
    ∧ nodeOneKey.verify_message msgDupSigs = some 2 := by decide

/-- Claim C2 (amended): `verify_message` credits each attached signature to
at most one validator (the inner loop breaks at the first matching key, so
a signature adds exactly one when some known key verifies it and zero
otherwise), but counts signatures with multiplicity: the contribution of
the last attached signature is independent of the signatures before it, so
a duplicate from the same signer counts again rather than once. -/
theorem c2_verify_message_per_signature (s : StreamletInstance) (m : Message)
    (sigs : List Signature) (sig : Signature)
    (h : m.signatures = some (sigs ++ [sig])) :
    s.verify_message m =
      (s.verify_message { m with signatures := some sigs }).map
        (fun k =>
          k + if s.public_keys.any (fun pk => s.verify_signature m sig pk)
              then 1 else 0) := by
  simp [StreamletInstance.verify_message, h, List.countP_append,
    List.countP_cons, StreamletInstance.verify_signature,
    Message.serialize_payload]

/-- The one-element signature list of the C2 witness. -/
def sigsOne : List Signature := [sigZero]

/-- The C2 witness message: `sigsOne` plus a duplicate of `sigZero`. -/
def msgOnePlusDup : Message :=
  ⟨blkPayload, MessageKind.vote, 0, some (sigsOne ++ [sigZero])⟩

/-- Witness for `c2_verify_message_per_signature` on the duplicated
signature. -/
theorem c2_witness :
    nodeOneKey.verify_message msgOnePlusDup =
      (nodeOneKey.verify_message
          { msgOnePlusDup with signatures := some sigsOne }).map
        (fun k =>
          k + if nodeOneKey.public_keys.any
                (fun pk => nodeOneKey.verify_signature msgOnePlusDup sigZero pk)
              then 1 else 0) :=
  c2_verify_message_per_signature nodeOneKey msgOnePlusDup sigsOne sigZero rfl

/-! ## Claim C4: leader election -/

/-- A node whose expected peer count is `2 ^ 32`. -/
def nodeHuge : StreamletInstance := ⟨0, [], false, 2 ^ 32, 0, []⟩

/-- Claim C4, counterexample: the claim promises an index in `[0, n)` for
EVERY `n > 0`, but `expected_peer_count` is cast to `u32` before the
modulo, so at `n = 2 ^ 32 > 0` the modulus truncates to zero and the Rust
`%` panics (modelled `none`) instead of returning an index. -/
theorem c4_counterexample :
    0 < nodeHuge.expected_peer_count
    ∧ nodeHuge.get_epoch_leader 1 = none := by decide

/-- Claim C4 (amended): for every epoch `e` and every expected validator
count `n` with `n` not divisible by `2 ^ 32`, `get_epoch_leader` returns an
index below `n` (in fact below `n mod 2 ^ 32`), and the result depends only
on `e` and `n`: any two nodes configured with the same expected count
compute the same leader, with no randomness or communication. -/
theorem c4_leader_deterministic_in_range (s1 s2 : StreamletInstance)
    (e : Int) (hn : s1.expected_peer_count % 2 ^ 32 ≠ 0)
    (heq : s2.expected_peer_count = s1.expected_peer_count) :
    ∃ k, s1.get_epoch_leader e = some k ∧ k < s1.expected_peer_count
      ∧ s2.get_epoch_leader e = some k := by
  refine ⟨defaultHasherI64 e % 2 ^ 32 % (s1.expected_peer_count % 2 ^ 32),
    ?_, ?_, ?_⟩
  · simp only [StreamletInstance.get_epoch_leader]
    rw [if_neg hn]
  · exact lt_of_lt_of_le
      (Nat.mod_lt _ (Nat.pos_of_ne_zero hn))
      (Nat.mod_le _ _)
  · simp only [StreamletInstance.get_epoch_leader, heq]
    rw [if_neg hn]

/-- One of two independently-initialized nodes expecting 4 peers. -/
def nodeA : StreamletInstance := ⟨0, [], false, 4, 0, []⟩

/-- The other node: different id, name, keys — same expected count. -/
def nodeB : StreamletInstance := ⟨1, [3], true, 4, 9, [7]⟩

/-- Witness for `c4_leader_deterministic_in_range` at `n = 4`, epoch 7. -/
theorem c4_witness :
    ∃ k, nodeA.get_epoch_leader 7 = some k
      ∧ k < nodeA.expected_peer_count
      ∧ nodeB.get_epoch_leader 7 = some k :=
  c4_leader_deterministic_in_range nodeA nodeB 7 (by decide) rfl

/-! ## Claims C5, C6, C7: signing and verification -/

/-- Claim C5: `sign_message` on a message that carries a signature
container (empty or partial) appends exactly one signature — this node's
signature over the serialized payload — at the end of the container,
leaving the previously attached signatures and the payload, kind and nonce
fields unchanged; on a message whose container is absent it panics
(modelled `none`), a fatal rather than recoverable outcome. -/
theorem c5_sign_message_contract (s : StreamletInstance) (m : Message) :
    (∀ sigs, m.signatures = some sigs →
      s.sign_message m =
        some { m with
                signatures :=
                  some (sigs ++ [keypairSign s.keypair m.serialize_payload]) })
    ∧ (m.signatures = none → s.sign_message m = none) := by
  constructor
  · intro sigs h
    simp [StreamletInstance.sign_message, h]
  · intro h
    simp [StreamletInstance.sign_message, h]

/-- The signing node of the C5/C6/C9/C10 witnesses. -/
def nodeSigner : StreamletInstance := ⟨0, [], false, 4, 3, [3]⟩

/-- The C5 witness message: an empty signature container. -/
def msgEmptySigs : Message := ⟨blkPayload, MessageKind.vote, 5, some []⟩

/-- Witness for `c5_sign_message_contract` on an empty container. -/
theorem c5_witness :
    nodeSigner.sign_message msgEmptySigs =
      some { msgEmptySigs with
              signatures :=
                some ([] ++
                  [keypairSign nodeSigner.keypair
                    msgEmptySigs.serialize_payload]) } :=
  (c5_sign_message_contract nodeSigner msgEmptySigs).1 [] rfl

/-- Claim C6: `verify_signature` always returns a `Bool` (its codomain) and
never raises: whenever the underlying verification reports any error —
malformed signature, key mismatch, mutated payload — the function returns
`false` rather than propagating the error, and it returns `true` exactly on
successful verification. -/
theorem c6_verify_signature_never_raises (s : StreamletInstance)
    (m : Message) (sig : Signature) (pk : PublicKey) :
    (∀ e, pkVerify pk m.serialize_payload sig = Except.error e →
      s.verify_signature m sig pk = false)
    ∧ (pkVerify pk m.serialize_payload sig = Except.ok () →
      s.verify_signature m sig pk = true) := by
  constructor
  · intro e h
    simp [StreamletInstance.verify_signature, h]
  · intro h
    simp [StreamletInstance.verify_signature, h]

/-- A failing signature for the C6 witness: signer 3, but verified against
public key 5, over bytes unrelated to the payload. -/
def sigMismatch : Signature := ⟨3, [9]⟩

/-- Witness for `c6_verify_signature_never_raises`: a key mismatch yields
`false`, not an error. -/
theorem c6_witness :
    nodeSigner.verify_signature msgEmptySigs sigMismatch 5 = false :=
  (c6_verify_signature_never_raises nodeSigner msgEmptySigs sigMismatch 5).1
    "Verification equation was not satisfied" rfl

/-- Claim C7: signatures cover the serialized payload only, never the kind
or nonce fields — mutating a message's nonce and kind after signing changes
neither the verdict of `verify_signature` on any attached signature nor the
count `verify_message` computes: both runs agree on the mutated and the
original message. -/
theorem c7_signatures_cover_payload_only (s : StreamletInstance)
    (m : Message) (k : MessageKind) (x : Nat) (sig : Signature)
    (pk : PublicKey) :
    s.verify_signature { m with kind := k, nonce := x } sig pk =
        s.verify_signature m sig pk
    ∧ s.verify_message { m with kind := k, nonce := x } =
        s.verify_message m :=
  ⟨rfl, rfl⟩

/-! ## Claim C8: envelope round-trip -/

/-- Claim C8: round-trip law for the message envelope encoding — for every
message `m`, deserializing the serialization of `m` yields `m` back. -/
theorem c8_round_trip (m : Message) :
    Message.deserialize (Message.serialize m) = some m := by
  obtain ⟨p, k, n, sigs⟩ := m
  have h1 := decPayload_serializePayload p (encSigsOpt sigs)
  have h2 : decSigsOpt (encSigsOpt sigs) = some (sigs, []) := by
    simpa using decSigsOpt_encSigsOpt sigs []
  simp [Message.serialize, Message.deserialize, decKind_encKind, h1, h2]

/-! ## Claim C9: the network-input event never crashes the loop -/

/-- Claim C9: for every sequence of raw bytes delivered from the network,
the `NetworkInput` arm of the event loop is a total state transition:
undecodable input is dropped with the state unchanged, a decoded
`PeerAdvertisement` payload appends the advertised key to the validator
set, and every other decoded payload leaves the state unchanged — no
network input reaches a fatal outcome. -/
theorem c9_network_input_total (s : StreamletInstance) (bytes : Bytes) :
    (Message.deserialize bytes = none → handle_network_input s bytes = s)
    ∧ (∀ msg ad, Message.deserialize bytes = some msg →
        msg.payload = MessagePayload.peerAd ad →
        handle_network_input s bytes = s.add_public_key ad.public_key)
    ∧ (∀ msg, Message.deserialize bytes = some msg →
        (∀ ad, msg.payload ≠ MessagePayload.peerAd ad) →
        handle_network_input s bytes = s) := by
  refine ⟨?_, ?_, ?_⟩
  · intro h
    simp [handle_network_input, h]
  · intro msg ad h hp
    simp [handle_network_input, h, hp]
  · intro msg h hp
    cases hpay : msg.payload with
    | peerAd ad => exact absurd hpay (hp ad)
    | block b => simp [handle_network_input, h, hpay]
    | str t => simp [handle_network_input, h, hpay]

/-- Witness for `c9_network_input_total`: the single word 999 is not a
decodable envelope; the state is unchanged. -/
theorem c9_witness : handle_network_input nodeSigner [999] = nodeSigner :=
  (c9_network_input_total nodeSigner [999]).1 rfl

/-! ## Claim C10: the missing-container panic -/

/-- A message with no signature container. -/
def msgNoContainer : Message := ⟨blkPayload, MessageKind.vote, 0, none⟩

/-- Claim C10: on a message whose signatures field is `None`,
`verify_message` unwraps the container and panics (modelled `none`) instead
of returning a count, and therefore `is_notarized` panics instead of
returning a boolean; callers must establish the container's presence. -/
theorem c10_missing_container_panics (s : StreamletInstance) (m : Message)
    (h : m.signatures = none) :
    s.verify_message m = none ∧ s.is_notarized m = none := by
  simp [StreamletInstance.verify_message, StreamletInstance.is_notarized, h]

/-- Witness for `c10_missing_container_panics`. -/
theorem c10_witness :
    nodeSigner.verify_message msgNoContainer = none
    ∧ nodeSigner.is_notarized msgNoContainer = none :=
  c10_missing_container_panics nodeSigner msgNoContainer rfl

end Streamlet

/-! ## Claim C3: fork choice -/

namespace RustBlockchainExample

/-- A singleton chain whose tip hash is the lexicographically smaller. -/
def chainSmallTip : List RBBlock := [⟨0, [1], [], [10]⟩]

/-- A distinct singleton chain with the larger tip hash. -/
def chainLargeTip : List RBBlock := [⟨0, [2], [], [20]⟩]

/-- Claim C3, counterexample: two valid chains of equal length; the claim
says the tie is broken by the smaller tip hash — here `[1] < [2]`, so both
nodes should pick `chainSmallTip` — but `choose_chain` keeps whichever
chain is LOCAL: with the roles swapped the two calls return the two
different chains, so nodes holding the same chains disagree on the tip. -/
theorem c3_counterexample :
    choose_chain chainSmallTip chainLargeTip = some chainSmallTip
    ∧ choose_chain chainLargeTip chainSmallTip = some chainLargeTip
    ∧ chainSmallTip ≠ chainLargeTip := by decide

/-- Claim C3 (amended): among the candidate chains the longest valid one by
block count is chosen, but when the two lengths are equal the LOCALLY held
chain is kept — there is no hash tie-break, so the computed tip depends on
which chain is locally held versus remotely received. -/
theorem c3_choose_chain_longest_local (loc remote : List RBBlock)
    (hl : is_chain_valid loc = true) (hr : is_chain_valid remote = true) :
    choose_chain loc remote =
      some (if remote.length ≤ loc.length then loc else remote) := by
  simp [choose_chain, hl, hr, ge_iff_le]

/-- Witness for `c3_choose_chain_longest_local` on the two singleton
chains. -/
theorem c3_witness :
    choose_chain chainSmallTip chainLargeTip =
      some (if chainLargeTip.length ≤ chainSmallTip.length
            then chainSmallTip else chainLargeTip) :=
  c3_choose_chain_longest_local chainSmallTip chainLargeTip rfl rfl

end RustBlockchainExample
